import Mathlib

set_option linter.unusedVariables false

/-!
# Verification of the exam-authoring client's synchronization layer

Shallow embedding of the data-access wrappers (`src/unnamed/part_000`),
the `ExerciseForge` screen's handlers (`src/unnamed/part_001`) and the
subscription effects of `ExerciseForge` and `Dashboard`
(`src/unnamed/part_001`, `src/unnamed/part_002`).

Remote calls are modelled by passing their outcome as an explicit
argument: a handler that `await`s a remote call becomes a pure function
of the call's result.  A thrown JS error is `Except.error`; the supabase
client's non-throwing result record `{ data, error }` is the structure
`SingleResponse`.  Notifications (`toast.success` / `toast.error`) are
accumulated in a list so that "a notification is shown" is a statement
about the resulting state.
-/

/-- A supabase/PostgREST error object; only its `code` field is inspected
by the client code. -/
structure DbError where
  code : String
  deriving DecidableEq, Repr

/-- The result record of a supabase query terminated by `.single()`:
`{ data, error }`.  When no row matches, PostgREST yields `data = null`
and an error whose code is `"PGRST116"`. -/
structure SingleResponse (α : Type) where
  data : Option α
  error : Option DbError
  deriving Repr

/-- The `.single()` response delivered when no row matches the query. -/
def SingleResponse.notFound (α : Type) : SingleResponse α :=
  { data := none, error := some { code := "PGRST116" } }

/-- Row of the `exams` table (fields used by the client). -/
structure Exam where
  id : String
  title : String
  content : String
  teacher_id : String
  deriving DecidableEq, Repr

/-- Row of the `corrections` table (fields used by the client). -/
structure Correction where
  id : String
  exam_id : String
  content : String
  teacher_id : String
  deriving DecidableEq, Repr

/-- Row of the `pupils` table (fields used by the client). -/
structure Pupil where
  id : String
  name : String
  teacher_id : String
  deriving DecidableEq, Repr

/-- Row of the `reports` table (fields used by the client). -/
structure Report where
  id : String
  pupil_id : String
  teacher_id : String
  report_title : String
  deriving DecidableEq, Repr

namespace database

namespace exams

/-- Embeds `database.exams.get` (src/unnamed/part_000 lines 109-118): a
`.single()` select by id; `if (error) throw error; return exam;`. -/
def get (id : String) (resp : SingleResponse Exam) :
    Except DbError (Option Exam) :=
  match resp.error with
  | some e => .error e
  | none => .ok resp.data

/-- Embeds `database.exams.update` (src/unnamed/part_000 lines 97-107): update
by id followed by `.select().single()`; `if (error) throw error`. -/
def update (id : String) (content : String) (resp : SingleResponse Exam) :
    Except DbError (Option Exam) :=
  match resp.error with
  | some e => .error e
  | none => .ok resp.data

/-- Embeds `database.exams.create` (src/unnamed/part_000 lines 73-85): insert
followed by `.select().single()`; `if (error) throw error`. -/
def create (title content : String) (resp : SingleResponse Exam) :
    Except DbError (Option Exam) :=
  match resp.error with
  | some e => .error e
  | none => .ok resp.data

end exams

namespace corrections

/-- Embeds `database.corrections.getByExamId` (src/unnamed/part_000 lines
136-145): a `.single()` select by `exam_id`;
`if (error && error.code !== 'PGRST116') throw error; return correction || null;`. -/
def getByExamId (examId : String) (resp : SingleResponse Correction) :
    Except DbError (Option Correction) :=
  match resp.error with
  | some e => if e.code ≠ "PGRST116" then .error e else .ok resp.data
  | none => .ok resp.data

/-- Embeds `database.corrections.update` (src/unnamed/part_000 lines 147-157):
update by id followed by `.select().single()`; `if (error) throw error`. -/
def update (id : String) (content : String) (resp : SingleResponse Correction) :
    Except DbError (Option Correction) :=
  match resp.error with
  | some e => .error e
  | none => .ok resp.data

/-- Embeds `database.corrections.create` (src/unnamed/part_000 lines 122-134):
insert followed by `.select().single()`; `if (error) throw error`. -/
def create (content exam_id : String) (resp : SingleResponse Correction) :
    Except DbError (Option Correction) :=
  match resp.error with
  | some e => .error e
  | none => .ok resp.data

end corrections

namespace pupils

/-- Embeds `database.pupils.create` (src/unnamed/part_000 lines 20-32): insert
followed by `.select().single()`; `if (error) throw error`. -/
def create (name : String) (resp : SingleResponse Pupil) :
    Except DbError (Option Pupil) :=
  match resp.error with
  | some e => .error e
  | none => .ok resp.data

end pupils

namespace reports

/-- Embeds `database.reports.create` (src/unnamed/part_000 lines 46-58): insert
followed by `.select().single()`; `if (error) throw error`. -/
def create (pupil_id : String) (resp : SingleResponse Report) :
    Except DbError (Option Report) :=
  match resp.error with
  | some e => .error e
  | none => .ok resp.data

end reports

end database

/-- A user-facing notification (`react-hot-toast`). -/
inductive Toast
  | success (msg : String)
  | error (msg : String)
  deriving DecidableEq, Repr

/-- Editor mode of `ExerciseForge` (src/unnamed/part_001 line 18). -/
inductive Mode
  | edit
  | correction
  deriving DecidableEq, Repr

/-- A chat message of `ExerciseForge` (src/unnamed/part_001 lines 49-51). -/
structure ChatMessage where
  content : String
  isUser : Bool
  id : Option String := none
  deriving DecidableEq, Repr

/-- The mutable state of the `ExerciseForge` component
(src/unnamed/part_001 lines 22-59): `useState` hooks, the `useRef`
caches, and the list of notifications emitted so far. -/
structure ForgeState where
  exams : List Exam
  examContentCache : List (String × String)
  examListCache : List Exam
  selectedExam : Option Exam
  examContent : String
  correctionContent : String
  editableContent : String
  correction : Option Correction
  mode : Mode
  isLoadingContent : Bool
  isCreatingNew : Bool
  chatMessages : List ChatMessage
  isSendingMessage : Bool
  message : String
  newExamId : Option String
  toasts : List Toast
  deriving Repr

/-- The initial state of the component's hooks (src/unnamed/part_001
lines 22-59: empty lists/strings, `mode = "edit"`, nothing selected). -/
def ForgeState.init : ForgeState :=
  { exams := [], examContentCache := [], examListCache := []
    selectedExam := none, examContent := "", correctionContent := ""
    editableContent := "", correction := none, mode := .edit
    isLoadingContent := false, isCreatingNew := false, chatMessages := []
    isSendingMessage := false, message := "", newExamId := none, toasts := [] }

/-- Embeds `examContentCache.current[key] = value` on a JS object modelled as an
association list: overwrite the binding if present, else add it. -/
def cacheSet (cache : List (String × String)) (key value : String) :
    List (String × String) :=
  if cache.any (fun p => p.1 = key) then
    cache.map (fun p => if p.1 = key then (key, value) else p)
  else (key, value) :: cache

/-- Embeds `delete examContentCache.current[key]`. -/
def cacheDelete (cache : List (String × String)) (key : String) :
    List (String × String) :=
  cache.filter (fun p => p.1 ≠ key)

/-- The `exams` INSERT subscription handler of `ExerciseForge`
(src/unnamed/part_001 lines 114-131): if the payload's `teacher_id`
matches the current user, fetch the complete row (outcome passed as
`fetched`); when a row comes back, write it into the content cache,
prepend it to the `exams` list and mark it as new. -/
def examsInsertHandler (uid : String) (payloadTeacherId : String)
    (fetched : Option Exam) (s : ForgeState) : ForgeState :=
  if payloadTeacherId = uid then
    match fetched with
    | some newExam =>
        { s with
          examContentCache := cacheSet s.examContentCache newExam.id newExam.content
          exams := newExam :: s.exams
          newExamId := some newExam.id }
    | none => s
  else s

/-- Number of entries with the given row id in a list of exams. -/
def countId (id : String) (l : List Exam) : Nat :=
  (l.filter (fun e => e.id = id)).length

/-- Embeds `loadCorrection` (src/unnamed/part_001 lines 185-209), with the
outcome of `database.corrections.getByExamId` passed as `fetchRes`
(`Except.error` models the thrown error caught by the `catch` block).
`selectedExam` is the value captured by the handler's closure at render
time (state setters issued earlier in the same handler do not change it).
Returns the new state together with a flag recording whether the remote
fetch was performed (it is, exactly when an exam is selected). -/
def loadCorrection (selectedExam : Option Exam) (currentMode : Mode)
    (fetchRes : Except DbError (Option Correction)) (s : ForgeState) :
    ForgeState × Bool :=
  match selectedExam with
  | none => (s, false)
  | some _ =>
    match fetchRes with
    | .error _ =>
        ({ s with toasts := Toast.error "Failed to load correction" :: s.toasts
                  isLoadingContent := false }, true)
    | .ok corr =>
      let s := { s with correction := corr }
      match corr with
      | some c =>
        let s := { s with correctionContent := c.content }
        let s := if currentMode = Mode.correction then
            { s with editableContent := c.content } else s
        ({ s with isLoadingContent := false }, true)
      | none =>
        let s := { s with correctionContent := "" }
        let s := if currentMode = Mode.correction then
            { s with editableContent := "" } else s
        ({ s with isLoadingContent := false }, true)

/-- Embeds `handleToggleMode` (src/unnamed/part_001 lines 258-273), instrumented
with a flag recording whether the remote correction fetch was performed:
`correction → edit` stashes the buffer into the correction slot and
restores the exam content; `edit → correction` stashes the buffer into
the exam slot, then either calls `loadCorrection` (when no correction is
held and an exam is selected) or reuses `correctionContent`. -/
def handleToggleModeF (newMode : Mode)
    (fetchRes : Except DbError (Option Correction)) (s : ForgeState) :
    ForgeState × Bool :=
  let r :=
    if s.mode = Mode.correction ∧ newMode = Mode.edit then
      ({ s with correctionContent := s.editableContent
                editableContent := s.examContent }, false)
    else if s.mode = Mode.edit ∧ newMode = Mode.correction then
      let s := { s with examContent := s.editableContent }
      if s.correction = none ∧ s.selectedExam ≠ none then
        loadCorrection s.selectedExam newMode fetchRes s
      else
        ({ s with editableContent := s.correctionContent }, false)
    else (s, false)
  ({ r.1 with mode := newMode }, r.2)

/-- Embeds `handleToggleMode` as the plain state transformer. -/
def handleToggleMode (newMode : Mode)
    (fetchRes : Except DbError (Option Correction)) (s : ForgeState) :
    ForgeState :=
  (handleToggleModeF newMode fetchRes s).1

/-- The remote store's tables as consumed by the save handler. -/
structure RemoteStore where
  exams : List Exam
  corrections : List Correction
  deriving DecidableEq, Repr

/-- Remote semantics of the query issued by `database.exams.update`
(src/unnamed/part_000 lines 97-107): `UPDATE exams SET content WHERE id`,
then `.select().single()` returns the matching row, or the `PGRST116`
not-found response when no row matches. -/
def RemoteStore.updateExam (st : RemoteStore) (id content : String) :
    RemoteStore × SingleResponse Exam :=
  let exams := st.exams.map fun e =>
    if e.id = id then { e with content := content } else e
  let st := { st with exams := exams }
  match exams.find? (fun e => e.id = id) with
  | some e => (st, { data := some e, error := none })
  | none => (st, SingleResponse.notFound Exam)

/-- Remote semantics of the query issued by `database.corrections.update`
(src/unnamed/part_000 lines 147-157). -/
def RemoteStore.updateCorrection (st : RemoteStore) (id content : String) :
    RemoteStore × SingleResponse Correction :=
  let corrections := st.corrections.map fun c =>
    if c.id = id then { c with content := content } else c
  let st := { st with corrections := corrections }
  match corrections.find? (fun c => c.id = id) with
  | some c => (st, { data := some c, error := none })
  | none => (st, SingleResponse.notFound Correction)

/-- Remote semantics of the insert issued by `database.corrections.create`
(src/unnamed/part_000 lines 122-134): a fresh row (id chosen by the
store, `teacher_id` from the session) is added and returned. -/
def RemoteStore.createCorrection (st : RemoteStore)
    (content exam_id newId teacherId : String) : RemoteStore × Correction :=
  let c : Correction :=
    { id := newId, exam_id := exam_id, content := content
      teacher_id := teacherId }
  ({ st with corrections := c :: st.corrections }, c)

/-- Embeds `updateExamInList` (src/unnamed/part_001 lines 171-177): replace the
matching row in the `exams` list and mirror the result into
`examListCache`. -/
def updateExamInList (updatedExam : Exam) (s : ForgeState) : ForgeState :=
  let updatedExams := s.exams.map fun e =>
    if e.id = updatedExam.id then updatedExam else e
  { s with exams := updatedExams, examListCache := updatedExams }

/-- Embeds `handleSave` (src/unnamed/part_001 lines 275-313), with the remote
store passed explicitly: no-op without a selected exam; in `edit` mode
update the exam row and the local mirrors; in `correction` mode update
the held correction row if there is one, otherwise create one for the
selected exam.  A thrown remote error reaches the `catch` block, which
only emits the failure notification. -/
def handleSave (newCorrId teacherId : String) (st : RemoteStore)
    (s : ForgeState) : RemoteStore × ForgeState :=
  match s.selectedExam with
  | none => (st, s)
  | some sel =>
    match s.mode with
    | .edit =>
      let r := st.updateExam sel.id s.editableContent
      match database.exams.update sel.id s.editableContent r.2 with
      | .ok (some updatedExam) =>
          (r.1, updateExamInList updatedExam
            { s with
              examContent := s.editableContent
              examContentCache :=
                cacheSet s.examContentCache sel.id s.editableContent
              toasts := Toast.success "Exam saved successfully" :: s.toasts })
      | _ =>
          -- thrown error (or a null row, which would crash `updateExamInList`)
          (r.1, { s with
                  toasts := Toast.error "Failed to save exam. Please try again."
                    :: s.toasts })
    | .correction =>
      match s.correction with
      | some corr =>
        let r := st.updateCorrection corr.id s.editableContent
        match database.corrections.update corr.id s.editableContent r.2 with
        | .error _ =>
            (r.1, { s with
                    toasts :=
                      Toast.error "Failed to save correction. Please try again."
                        :: s.toasts })
        | .ok _ =>
            (r.1, { s with
              correctionContent := s.editableContent
              toasts :=
                Toast.success "Correction saved successfully" :: s.toasts })
      | none =>
        let r := st.createCorrection s.editableContent sel.id newCorrId teacherId
        (r.1, { s with
          correction := some r.2
          correctionContent := r.2.content
          toasts := Toast.success "Correction saved successfully" :: s.toasts })

/-- The call `database.exams.delete(examId)` issued by `handleExamDelete`
(src/unnamed/part_001 line 504).  The `database.exams` object exports
only `create`, `list`, `update` and `get` (src/unnamed/part_000 lines
72-119); accessing the missing `delete` property yields `undefined`, so
the call throws `TypeError` before reaching the remote store. -/
def examsDeleteCall (examId : String) : Except String Unit :=
  .error "TypeError: database.exams.delete is not a function"

/-- Embeds `handleExamDelete` (src/unnamed/part_001 lines 498-530): after the
user confirms, call `database.exams.delete(examId)`; on success drop the
exam from the content cache, the list and the list cache, clear the
dependent UI state when the deleted exam was selected, and report
success; a thrown error reaches the `catch` block, which only reports
failure. -/
def handleExamDelete (confirmed : Bool) (examId : String) (s : ForgeState) :
    ForgeState :=
  if !confirmed then s
  else
    match examsDeleteCall examId with
    | .error _ =>
        { s with toasts :=
            Toast.error "Failed to delete exam. Please try again." :: s.toasts }
    | .ok _ =>
        let s := { s with
          examContentCache := cacheDelete s.examContentCache examId
          exams := s.exams.filter fun e => e.id ≠ examId
          examListCache := s.exams.filter fun e => e.id ≠ examId }
        let s :=
          if s.selectedExam.map Exam.id = some examId then
            { s with
              selectedExam := none, examContent := "", correctionContent := ""
              correction := none, editableContent := "", chatMessages := []
              mode := Mode.edit }
          else s
        { s with toasts := Toast.success "Exam deleted successfully" :: s.toasts }

/-- Models JS `String.prototype.trim` as used by `handleSendMessage`
(src/unnamed/part_001 lines 366, 389): strip leading and trailing
whitespace. -/
def jsTrim (s : String) : String :=
  String.mk
    (((s.data.dropWhile Char.isWhitespace).reverse.dropWhile
        Char.isWhitespace).reverse)

/-- Outcome of the webhook `fetch` in `handleSendMessage`
(src/unnamed/part_001 lines 379-398): the network call may throw
(`netError`), the response may have a non-success status
(`!response.ok`, `httpError`), or it yields the parsed JSON body
`{output, examId?, correctionId?}`. -/
inductive WebhookOutcome
  | netError
  | httpError
  | ok (output : String) (examId : Option String) (correctionId : Option String)
  deriving DecidableEq, Repr

/-- Embeds `handleSendMessage` (src/unnamed/part_001 lines 364-432): guard, then
append the user message, clear the input, raise the sending flag and
append the `"typing"` placeholder; on webhook failure (thrown fetch or
non-success status) the `catch` block shows the failure notification and
removes the placeholder; on success the placeholder is removed and the
AI reply appended, a new exam may be fetched and selected (`examFetch`
is that call's outcome; its thrown error also reaches the `catch`
block), and in correction mode a returned correction id triggers
`loadCorrection` (with the closure's `selectedExam`, captured at entry).
The `finally` block always clears the sending flag. -/
def handleSendMessage (user : Option String) (outcome : WebhookOutcome)
    (examFetch : Except DbError Exam)
    (corrFetch : Except DbError (Option Correction)) (s : ForgeState) :
    ForgeState :=
  if jsTrim s.message = "" ∨ (s.selectedExam = none ∧ s.isCreatingNew = false)
      ∨ user = none then s
  else
    let sel0 := s.selectedExam
    let s := { s with
      chatMessages := s.chatMessages ++ [({ content := s.message, isUser := true } : ChatMessage)]
      message := ""
      isSendingMessage := true }
    let s := { s with
      chatMessages := s.chatMessages
        ++ [({ content := "...", isUser := false, id := some "typing" } : ChatMessage)] }
    match outcome with
    | .netError | .httpError =>
        let s := { s with
          toasts := Toast.error "Failed to get AI response. Please try again."
            :: s.toasts }
        let s := { s with
          chatMessages := s.chatMessages.filter fun m => m.id ≠ some "typing" }
        { s with isSendingMessage := false }
    | .ok output dataExamId dataCorrectionId =>
        let s := { s with
          chatMessages := s.chatMessages.filter fun m => m.id ≠ some "typing" }
        let s := { s with
          chatMessages := s.chatMessages ++ [({ content := output, isUser := false } : ChatMessage)] }
        if s.isCreatingNew ∧ dataExamId ≠ none then
          match examFetch with
          | .error _ =>
              let s := { s with
                toasts :=
                  Toast.error "Failed to get AI response. Please try again."
                    :: s.toasts }
              let s := { s with
                chatMessages :=
                  s.chatMessages.filter fun m => m.id ≠ some "typing" }
              { s with isSendingMessage := false }
          | .ok exam =>
              let s := { s with
                selectedExam := some exam
                examContent := exam.content
                editableContent := exam.content
                examContentCache := cacheSet s.examContentCache exam.id exam.content
                exams := exam :: s.exams
                examListCache := exam :: s.exams
                isCreatingNew := false
                toasts := Toast.success "New exam created!" :: s.toasts }
              let s := if s.mode = Mode.correction ∧ dataCorrectionId ≠ none then
                  (loadCorrection sel0 s.mode corrFetch s).1 else s
              { s with isSendingMessage := false }
        else
          let s := if s.mode = Mode.correction ∧ dataCorrectionId ≠ none then
              (loadCorrection sel0 s.mode corrFetch s).1 else s
          { s with isSendingMessage := false }

/-- The non-throwing result record of the direct supabase update in
`handleTitleChange` (src/unnamed/part_001 lines 536-539); its `error`
field is what the handler never reads. -/
structure UpdateResult where
  error : Option DbError
  deriving DecidableEq, Repr

/-- Embeds `handleTitleChange` (src/unnamed/part_001 lines 532-551): updates
only the title column remotely; the awaited supabase call does not throw
on a per-operation failure — it reports it in the result's `error`
field, which the handler never inspects — so the local exam list,
the selection and the success notification are applied regardless.
Only a thrown, network-level failure (`remote = .error`) reaches the
`catch` block. -/
def handleTitleChange (remote : Except Unit UpdateResult)
    (newTitle : String) (s : ForgeState) : ForgeState :=
  match s.selectedExam with
  | none => s
  | some sel =>
    match remote with
    | .error _ =>
        { s with toasts := Toast.error "Failed to update title" :: s.toasts }
    | .ok _res =>
        let updatedExam := { sel with title := newTitle }
        let s := updateExamInList updatedExam s
        { s with
          selectedExam := some updatedExam
          toasts := Toast.success "Title updated successfully" :: s.toasts }

/-- A realtime channel as identified by the subscription effects: one
table, filtered to one owning user. -/
structure Channel where
  table : String
  userId : String
  deriving DecidableEq, Repr

/-- The client-side subscription state of one mounted screen's effect:
the set of channels currently open on the realtime client, and the
channel held by the effect's last run (whose cleanup closure will remove
it). -/
structure EffectState where
  active : List Channel
  held : Option Channel
  deriving DecidableEq, Repr

/-- Run the cleanup returned by the previous effect run, if any:
`supabase.removeChannel(channel)` (src/unnamed/part_001 lines 135-137,
src/unnamed/part_002 lines 148-151). -/
def runCleanup (s : EffectState) : EffectState :=
  match s.held with
  | none => s
  | some ch => { active := s.active.filter fun c => c ≠ ch, held := none }

/-- One run of the subscription effect body (src/unnamed/part_001 lines
101-138, src/unnamed/part_002 lines 92-152): with no user id it returns
early and registers no cleanup; otherwise it opens exactly one channel
on `table` filtered to the user and registers its removal as cleanup. -/
def effectBody (table : String) (uid : Option String) (s : EffectState) :
    EffectState :=
  match uid with
  | none => s
  | some u =>
      { active := { table := table, userId := u } :: s.active
        held := some { table := table, userId := u } }

/-- Lifecycle events delivered by React to the effect: a (re-)run of the
effect with the current user id (dependencies changed or the screen
mounted), or unmount. -/
inductive SubEvent
  | rerun (uid : Option String)
  | unmount
  deriving DecidableEq, Repr

/-- React's effect semantics: before re-running the effect and on
unmount, the previous run's cleanup executes. -/
def subStep (table : String) (s : EffectState) (ev : SubEvent) : EffectState :=
  match ev with
  | .rerun uid => effectBody table uid (runCleanup s)
  | .unmount => runCleanup s

/-- The subscription state reached from mount after a sequence of
lifecycle events. -/
def subRun (table : String) (evs : List SubEvent) : EffectState :=
  evs.foldl (subStep table) { active := [], held := none }

/-- C2: on the not-found `.single()` response (error code `PGRST116`,
no data), `corrections.getByExamId` returns an empty result without an
error, while `exams.get` — and every other single-row operation of the
domain access layer — throws the error. -/
theorem c2_getByExamId_notFound_ok_others_throw
    (examId id title content exam_id name pupil_id : String) :
    database.corrections.getByExamId examId (SingleResponse.notFound Correction)
      = .ok none
    ∧ database.exams.get id (SingleResponse.notFound Exam)
      = .error { code := "PGRST116" }
    ∧ database.exams.update id content (SingleResponse.notFound Exam)
      = .error { code := "PGRST116" }
    ∧ database.exams.create title content (SingleResponse.notFound Exam)
      = .error { code := "PGRST116" }
    ∧ database.corrections.update id content (SingleResponse.notFound Correction)
      = .error { code := "PGRST116" }
    ∧ database.corrections.create content exam_id (SingleResponse.notFound Correction)
      = .error { code := "PGRST116" }
    ∧ database.pupils.create name (SingleResponse.notFound Pupil)
      = .error { code := "PGRST116" }
    ∧ database.reports.create pupil_id (SingleResponse.notFound Report)
      = .error { code := "PGRST116" } := by
  refine ⟨?_, rfl, rfl, rfl, rfl, rfl, rfl, rfl⟩
  simp [database.corrections.getByExamId, SingleResponse.notFound]

theorem countId_cons (id : String) (e : Exam) (l : List Exam) :
    countId id (e :: l) = (if e.id = id then 1 else 0) + countId id l := by
  by_cases h : e.id = id <;> simp [countId, h, Nat.add_comm]

/-- C1 counterexample: delivering the same INSERT notification twice for
row `e1` (starting from the empty list) leaves the row in the cached
list twice, not exactly once. -/
theorem c1_counterexample :
    countId "e1"
      ((examsInsertHandler "u1" "u1" (some ⟨"e1", "T", "C", "u1"⟩)
        (examsInsertHandler "u1" "u1" (some ⟨"e1", "T", "C", "u1"⟩)
          ForgeState.init)).exams) = 2
    ∧ countId "e1"
      ((examsInsertHandler "u1" "u1" (some ⟨"e1", "T", "C", "u1"⟩)
        (examsInsertHandler "u1" "u1" (some ⟨"e1", "T", "C", "u1"⟩)
          ForgeState.init)).exams) ≠ 1 := by
  constructor <;> decide

/-- C1 amended: the merge prepends unconditionally, so two insertion
notifications for the same (previously absent) row id leave the row in
the cached list exactly twice — once per notification; the merge is not
idempotent. -/
theorem c1_amended_two_notifications_duplicate
    (s : ForgeState) (uid : String) (ex : Exam)
    (hteach : ex.teacher_id = uid) (hfresh : countId ex.id s.exams = 0) :
    countId ex.id
      ((examsInsertHandler uid ex.teacher_id (some ex)
        (examsInsertHandler uid ex.teacher_id (some ex) s)).exams) = 2 := by
  simp [examsInsertHandler, hteach, countId_cons, hfresh]

theorem c1_amended_two_notifications_duplicate_witness :
    countId "e1"
      ((examsInsertHandler "u1" "u1" (some ⟨"e1", "T", "C", "u1"⟩)
        (examsInsertHandler "u1" "u1" (some ⟨"e1", "T", "C", "u1"⟩)
          ForgeState.init)).exams) = 2 :=
  c1_amended_two_notifications_duplicate ForgeState.init "u1"
    ⟨"e1", "T", "C", "u1"⟩ rfl rfl

theorem loadCorrection_examContent (sel : Option Exam) (m : Mode)
    (f : Except DbError (Option Correction)) (s : ForgeState) :
    (loadCorrection sel m f s).1.examContent = s.examContent := by
  unfold loadCorrection
  cases sel <;> simp
  cases f <;> simp
  rename_i corr
  cases corr <;> simp <;> split <;> simp

theorem handleToggleModeF_mode (n : Mode)
    (f : Except DbError (Option Correction)) (s : ForgeState) :
    (handleToggleModeF n f s).1.mode = n := by
  unfold handleToggleModeF
  simp

theorem toggle_corr_to_edit_editable
    (f : Except DbError (Option Correction)) (s : ForgeState)
    (h : s.mode = Mode.correction) :
    (handleToggleModeF Mode.edit f s).1.editableContent = s.examContent := by
  unfold handleToggleModeF
  simp [h]

theorem toggle_edit_to_corr_examContent
    (f : Except DbError (Option Correction)) (s : ForgeState)
    (h : s.mode = Mode.edit) :
    (handleToggleModeF Mode.correction f s).1.examContent
      = s.editableContent := by
  unfold handleToggleModeF
  simp [h]
  split
  · rw [loadCorrection_examContent]
  · simp

/-- C3: with an exam selected and the editor in `edit` mode, toggling
`edit → correction` and then `correction → edit` without saving returns
the editable buffer to exactly its content before the first toggle,
whatever the outcomes of the correction fetches. -/
theorem c3_toggle_roundtrip_editable
    (s : ForgeState) (ex : Exam)
    (hsel : s.selectedExam = some ex) (hmode : s.mode = Mode.edit)
    (f1 f2 : Except DbError (Option Correction)) :
    (handleToggleMode Mode.edit f2
      (handleToggleMode Mode.correction f1 s)).editableContent
      = s.editableContent := by
  rw [handleToggleMode, handleToggleMode,
    toggle_corr_to_edit_editable f2 _ (handleToggleModeF_mode _ f1 s),
    toggle_edit_to_corr_examContent f1 s hmode]

theorem updateExam_fst_exams (st : RemoteStore) (id content : String) :
    (st.updateExam id content).1.exams
      = st.exams.map fun e =>
          if e.id = id then { e with content := content } else e := by
  unfold RemoteStore.updateExam
  dsimp only
  split <;> rfl

theorem updateCorrection_fst_corrections (st : RemoteStore)
    (id content : String) :
    (st.updateCorrection id content).1.corrections
      = st.corrections.map fun c =>
          if c.id = id then { c with content := content } else c := by
  unfold RemoteStore.updateCorrection
  dsimp only
  split <;> rfl

/-- C4: with an exam selected, a save in `edit` mode rewrites the
selected exam row's content in the remote store to the current buffer;
a save in `correction` mode rewrites the held correction row's content
to the buffer when one is held, and otherwise adds a new correction row
referencing the selected exam with the buffer content. -/
theorem c4_save_per_mode (newCorrId teacherId : String) (st : RemoteStore)
    (s : ForgeState) (sel : Exam) (hsel : s.selectedExam = some sel) :
    (s.mode = Mode.edit →
      (handleSave newCorrId teacherId st s).1.exams
        = st.exams.map fun e =>
            if e.id = sel.id then { e with content := s.editableContent }
            else e)
    ∧ (s.mode = Mode.correction → ∀ corr, s.correction = some corr →
      (handleSave newCorrId teacherId st s).1.corrections
        = st.corrections.map fun c =>
            if c.id = corr.id then { c with content := s.editableContent }
            else c)
    ∧ (s.mode = Mode.correction → s.correction = none →
      (handleSave newCorrId teacherId st s).1.corrections
        = { id := newCorrId, exam_id := sel.id
            content := s.editableContent
            teacher_id := teacherId } :: st.corrections) := by
  refine ⟨fun hmode => ?_, fun hmode corr hcorr => ?_, fun hmode hcorr => ?_⟩
  · unfold handleSave
    simp only [hsel, hmode]
    split <;> simp [updateExam_fst_exams]
  · unfold handleSave
    simp only [hsel, hmode, hcorr]
    split <;> simp [updateCorrection_fst_corrections]
  · unfold handleSave
    simp [hsel, hmode, hcorr, RemoteStore.createCorrection]

theorem c4_save_per_mode_witness :
    (handleSave "c9" "u1"
      { exams := [⟨"e1", "T", "old", "u1"⟩], corrections := [] }
      { ForgeState.init with
          selectedExam := some ⟨"e1", "T", "old", "u1"⟩
          editableContent := "new" }).1.exams
      = [⟨"e1", "T", "new", "u1"⟩] := by
  rw [(c4_save_per_mode "c9" "u1"
    { exams := [⟨"e1", "T", "old", "u1"⟩], corrections := [] }
    { ForgeState.init with
        selectedExam := some ⟨"e1", "T", "old", "u1"⟩
        editableContent := "new" }
    ⟨"e1", "T", "old", "u1"⟩ rfl).1 rfl]
  decide

/-- C5 counterexample: with an exam selected and no correction row in
the remote store, the first `edit → correction` toggle performs the
remote fetch, and after toggling back, the next `edit → correction`
toggle for the same selected exam performs the remote fetch again — the
correction is not fetched only once per selected exam. -/
theorem c5_counterexample :
    (handleToggleModeF Mode.correction (.ok none)
      { ForgeState.init with
          selectedExam := some ⟨"e1", "T", "C", "u1"⟩ }).2 = true
    ∧ (handleToggleModeF Mode.correction (.ok none)
        (handleToggleMode Mode.edit (.ok none)
          (handleToggleMode Mode.correction (.ok none)
            { ForgeState.init with
                selectedExam := some ⟨"e1", "T", "C", "u1"⟩ }))).2 = true := by
  constructor <;> decide

theorem toggle_edit_to_corr_found (s : ForgeState) (ex : Exam)
    (c : Correction) (hmode : s.mode = Mode.edit)
    (hcorr : s.correction = none) (hsel : s.selectedExam = some ex) :
    handleToggleModeF Mode.correction (.ok (some c)) s
      = ({ s with
            examContent := s.editableContent
            correction := some c
            correctionContent := c.content
            editableContent := c.content
            isLoadingContent := false
            mode := Mode.correction }, true) := by
  unfold handleToggleModeF loadCorrection
  simp [hmode, hcorr, hsel]

theorem toggle_corr_to_edit_eq
    (f : Except DbError (Option Correction)) (s : ForgeState)
    (h : s.mode = Mode.correction) :
    handleToggleModeF Mode.edit f s
      = ({ s with
            correctionContent := s.editableContent
            editableContent := s.examContent
            mode := Mode.edit }, false) := by
  unfold handleToggleModeF
  simp [h]

theorem toggle_edit_to_corr_cached
    (f : Except DbError (Option Correction)) (s : ForgeState)
    (c : Correction) (hmode : s.mode = Mode.edit)
    (hcorr : s.correction = some c) :
    handleToggleModeF Mode.correction f s
      = ({ s with
            examContent := s.editableContent
            editableContent := s.correctionContent
            mode := Mode.correction }, false) := by
  unfold handleToggleModeF
  simp [hmode, hcorr]

/-- C5 amended: the `edit → correction` transition first stashes the
buffer into the exam-content slot and then loads the correction into
the buffer; the fetched correction is cached — and reused, with no
further remote fetch, by every subsequent toggle — provided the fetch
succeeds and finds a correction row.  (When it finds none, or fails,
`correction` stays `null` and each later toggle fetches again.) -/
theorem c5_amended_fetch_cached_when_found
    (s : ForgeState) (ex : Exam) (c : Correction)
    (hmode : s.mode = Mode.edit) (hcorr : s.correction = none)
    (hsel : s.selectedExam = some ex)
    (f2 f3 : Except DbError (Option Correction)) :
    (handleToggleModeF Mode.correction (.ok (some c)) s).2 = true
    ∧ (handleToggleModeF Mode.correction (.ok (some c)) s).1.examContent
        = s.editableContent
    ∧ (handleToggleModeF Mode.correction (.ok (some c)) s).1.editableContent
        = c.content
    ∧ (handleToggleModeF Mode.correction f3
        (handleToggleMode Mode.edit f2
          (handleToggleModeF Mode.correction (.ok (some c)) s).1)).2 = false
    ∧ (handleToggleModeF Mode.correction f3
        (handleToggleMode Mode.edit f2
          (handleToggleModeF Mode.correction (.ok (some c)) s).1)).1.editableContent
      = (handleToggleMode Mode.edit f2
          (handleToggleModeF Mode.correction (.ok (some c)) s).1).correctionContent := by
  rw [toggle_edit_to_corr_found s ex c hmode hcorr hsel]
  rw [handleToggleMode, toggle_corr_to_edit_eq f2 _ rfl]
  rw [toggle_edit_to_corr_cached f3 _ c rfl rfl]
  exact ⟨rfl, rfl, rfl, rfl, rfl⟩

theorem c5_amended_fetch_cached_when_found_witness :
    (handleToggleModeF Mode.correction (.ok (some ⟨"c1", "e1", "K", "u1"⟩))
      { ForgeState.init with
          selectedExam := some ⟨"e1", "T", "C", "u1"⟩ }).2 = true
    ∧ (handleToggleModeF Mode.correction (.ok none)
        (handleToggleMode Mode.edit (.ok none)
          (handleToggleModeF Mode.correction
            (.ok (some ⟨"c1", "e1", "K", "u1"⟩))
            { ForgeState.init with
                selectedExam := some ⟨"e1", "T", "C", "u1"⟩ }).1)).2 = false :=
  ⟨(c5_amended_fetch_cached_when_found
      { ForgeState.init with selectedExam := some ⟨"e1", "T", "C", "u1"⟩ }
      ⟨"e1", "T", "C", "u1"⟩ ⟨"c1", "e1", "K", "u1"⟩ rfl rfl rfl
      (.ok none) (.ok none)).1,
   (c5_amended_fetch_cached_when_found
      { ForgeState.init with selectedExam := some ⟨"e1", "T", "C", "u1"⟩ }
      ⟨"e1", "T", "C", "u1"⟩ ⟨"c1", "e1", "K", "u1"⟩ rfl rfl rfl
      (.ok none) (.ok none)).2.2.2.1⟩

theorem c3_toggle_roundtrip_editable_witness :
    (handleToggleMode Mode.edit (.ok none)
      (handleToggleMode Mode.correction (.ok none)
        { ForgeState.init with
            selectedExam := some ⟨"e1", "T", "C", "u1"⟩
            editableContent := "draft" })).editableContent = "draft" :=
  c3_toggle_roundtrip_editable
    { ForgeState.init with
        selectedExam := some ⟨"e1", "T", "C", "u1"⟩
        editableContent := "draft" }
    ⟨"e1", "T", "C", "u1"⟩ rfl rfl (.ok none) (.ok none)

/-- C9: the exam-delete handler always takes its error branch — the
domain access layer exposes no `exams.delete` operation, so the call
throws; the handler emits exactly the failure notification and leaves
the exam list, the content cache, the list cache and the selection (and
every other state field) unchanged. -/
theorem c9_delete_always_errors (examId : String) (s : ForgeState) :
    handleExamDelete true examId s
      = { s with
          toasts := Toast.error "Failed to delete exam. Please try again."
            :: s.toasts } := rfl

/-- C6: evaluating the delete handler at the failing input — the
currently selected exam — shows that none of the dependent UI state is
reset: the selection, the exam content, the editable buffer and the chat
messages all keep their previous, non-initial values (the call to the
missing `database.exams.delete` throws before the clearing code runs). -/
theorem c6_delete_never_clears_state :
    (handleExamDelete true "e1"
      { ForgeState.init with
          selectedExam := some ⟨"e1", "T", "C", "u1"⟩
          exams := [⟨"e1", "T", "C", "u1"⟩]
          examContent := "C", editableContent := "C"
          chatMessages := [⟨"hi", true, none⟩] }).selectedExam
      = some ⟨"e1", "T", "C", "u1"⟩
    ∧ (handleExamDelete true "e1"
        { ForgeState.init with
            selectedExam := some ⟨"e1", "T", "C", "u1"⟩
            exams := [⟨"e1", "T", "C", "u1"⟩]
            examContent := "C", editableContent := "C"
            chatMessages := [⟨"hi", true, none⟩] }).examContent = "C"
    ∧ (handleExamDelete true "e1"
        { ForgeState.init with
            selectedExam := some ⟨"e1", "T", "C", "u1"⟩
            exams := [⟨"e1", "T", "C", "u1"⟩]
            examContent := "C", editableContent := "C"
            chatMessages := [⟨"hi", true, none⟩] }).chatMessages
      = [⟨"hi", true, none⟩]
    ∧ (handleExamDelete true "e1"
        { ForgeState.init with
            selectedExam := some ⟨"e1", "T", "C", "u1"⟩
            exams := [⟨"e1", "T", "C", "u1"⟩]
            examContent := "C", editableContent := "C"
            chatMessages := [⟨"hi", true, none⟩] }).exams
      = [⟨"e1", "T", "C", "u1"⟩] :=
  ⟨rfl, rfl, rfl, rfl⟩

/-- C7: whenever the guard passes and the webhook call fails — the fetch
throws or the response has a non-success status — the resulting chat
contains no `"typing"` placeholder, the failure notification is shown,
and the sending flag is cleared. -/
theorem c7_webhook_failure_cleanup
    (user : Option String) (outcome : WebhookOutcome)
    (examFetch : Except DbError Exam)
    (corrFetch : Except DbError (Option Correction)) (s : ForgeState)
    (hguard : ¬(jsTrim s.message = ""
      ∨ (s.selectedExam = none ∧ s.isCreatingNew = false) ∨ user = none))
    (hfail : outcome = WebhookOutcome.netError
      ∨ outcome = WebhookOutcome.httpError) :
    (∀ m ∈ (handleSendMessage user outcome examFetch corrFetch s).chatMessages,
        m.id ≠ some "typing")
    ∧ Toast.error "Failed to get AI response. Please try again."
        ∈ (handleSendMessage user outcome examFetch corrFetch s).toasts
    ∧ (handleSendMessage user outcome examFetch corrFetch s).isSendingMessage
        = false := by
  rcases hfail with h | h <;> subst h
  all_goals {
    refine ⟨?_, ?_, ?_⟩
    · intro m hm
      simp [handleSendMessage, hguard, List.mem_filter] at hm
      rcases hm with ⟨-, hh⟩ | rfl
      · exact hh
      · simp
    · simp [handleSendMessage, hguard]
    · simp [handleSendMessage, hguard]
  }

theorem c7_webhook_failure_cleanup_witness :
    (∀ m ∈ (handleSendMessage (some "u1") WebhookOutcome.httpError
        (.error { code := "X" }) (.ok none)
        { ForgeState.init with
            message := "hi"
            selectedExam := some ⟨"e1", "T", "C", "u1"⟩ }).chatMessages,
      m.id ≠ some "typing")
    ∧ Toast.error "Failed to get AI response. Please try again."
        ∈ (handleSendMessage (some "u1") WebhookOutcome.httpError
            (.error { code := "X" }) (.ok none)
            { ForgeState.init with
                message := "hi"
                selectedExam := some ⟨"e1", "T", "C", "u1"⟩ }).toasts
    ∧ (handleSendMessage (some "u1") WebhookOutcome.httpError
        (.error { code := "X" }) (.ok none)
        { ForgeState.init with
            message := "hi"
            selectedExam := some ⟨"e1", "T", "C", "u1"⟩ }).isSendingMessage
      = false :=
  c7_webhook_failure_cleanup (some "u1") WebhookOutcome.httpError
    (.error { code := "X" }) (.ok none)
    { ForgeState.init with
        message := "hi"
        selectedExam := some ⟨"e1", "T", "C", "u1"⟩ }
    (by decide) (Or.inr rfl)

/-- C10: with an exam selected, whenever the awaited title update
returns (with any `error` field, inspected by nobody), the handler
updates the local exam list and the selection and shows the success
notification; only a thrown network-level failure reaches the error
branch, which changes neither the list nor the selection. -/
theorem c10_title_change_ignores_remote_error
    (s : ForgeState) (sel : Exam) (newTitle : String) (res : UpdateResult)
    (hsel : s.selectedExam = some sel) :
    ((handleTitleChange (.ok res) newTitle s).selectedExam
        = some { sel with title := newTitle }
      ∧ (handleTitleChange (.ok res) newTitle s).exams
        = s.exams.map (fun e =>
            if e.id = sel.id then { sel with title := newTitle } else e)
      ∧ Toast.success "Title updated successfully"
        ∈ (handleTitleChange (.ok res) newTitle s).toasts)
    ∧ ((handleTitleChange (.error ()) newTitle s).exams = s.exams
      ∧ (handleTitleChange (.error ()) newTitle s).selectedExam
        = s.selectedExam
      ∧ Toast.error "Failed to update title"
        ∈ (handleTitleChange (.error ()) newTitle s).toasts) := by
  refine ⟨⟨?_, ?_, ?_⟩, ⟨?_, ?_, ?_⟩⟩ <;>
    simp [handleTitleChange, hsel, updateExamInList]

theorem c10_title_change_ignores_remote_error_witness :
    (handleTitleChange (.ok { error := some { code := "500" } }) "New"
      { ForgeState.init with
          selectedExam := some ⟨"e1", "T", "C", "u1"⟩ }).selectedExam
      = some ⟨"e1", "New", "C", "u1"⟩
    ∧ Toast.success "Title updated successfully"
      ∈ (handleTitleChange (.ok { error := some { code := "500" } }) "New"
          { ForgeState.init with
              selectedExam := some ⟨"e1", "T", "C", "u1"⟩ }).toasts :=
  ⟨(c10_title_change_ignores_remote_error
      { ForgeState.init with selectedExam := some ⟨"e1", "T", "C", "u1"⟩ }
      ⟨"e1", "T", "C", "u1"⟩ "New" { error := some { code := "500" } }
      rfl).1.1,
   (c10_title_change_ignores_remote_error
      { ForgeState.init with selectedExam := some ⟨"e1", "T", "C", "u1"⟩ }
      ⟨"e1", "T", "C", "u1"⟩ "New" { error := some { code := "500" } }
      rfl).1.2.2⟩

theorem runCleanup_clears (s : EffectState)
    (h : s.active = s.held.toList) :
    (runCleanup s).active = [] ∧ (runCleanup s).held = none := by
  cases hh : s.held with
  | none => rw [hh] at h; simp [runCleanup, hh, h]
  | some ch => rw [hh] at h; simp [runCleanup, hh, h]

theorem subStep_preserves_inv (table : String) (s : EffectState)
    (ev : SubEvent) (h : s.active = s.held.toList) :
    (subStep table s ev).active = (subStep table s ev).held.toList := by
  obtain ⟨hact, hheld⟩ := runCleanup_clears s h
  cases ev with
  | unmount => simp [subStep, hact, hheld]
  | rerun uid =>
    cases uid with
    | none => simp [subStep, effectBody, hact, hheld]
    | some u => simp [subStep, effectBody, hact, hheld]

theorem subRun_inv (table : String) (evs : List SubEvent) :
    (subRun table evs).active = (subRun table evs).held.toList := by
  induction evs using List.reverseRecOn with
  | nil => rfl
  | append_singleton l ev ih =>
      rw [subRun, List.foldl_append]
      exact subStep_preserves_inv table _ ev ih

/-- C8: after any sequence of effect lifecycle events from mount, at
most one channel per (table, user) pair is open; a re-run of the effect
replaces the previous channel with the single fresh one rather than
stacking a second; and unmount closes whatever channel is active,
unconditionally. -/
theorem c8_at_most_one_channel (table : String) (evs : List SubEvent)
    (tb u uid : String) :
    ((subRun table evs).active.filter
        fun c => c = { table := tb, userId := u }).length ≤ 1
    ∧ (subStep table (subRun table evs) SubEvent.unmount).active = []
    ∧ (subStep table (subRun table evs)
        (SubEvent.rerun (some uid))).active
      = [{ table := table, userId := uid }] := by
  have h := subRun_inv table evs
  obtain ⟨hact, hheld⟩ := runCleanup_clears _ h
  refine ⟨?_, ?_, ?_⟩
  · calc ((subRun table evs).active.filter
          fun c => c = { table := tb, userId := u }).length
        ≤ (subRun table evs).active.length := List.length_filter_le _ _
      _ ≤ 1 := by
          rw [h]; cases (subRun table evs).held <;> simp [Option.toList]
  · simp [subStep, hact, hheld]
  · simp [subStep, effectBody, hact, hheld]
